import Mathlib

/-!
# sshtool: a verification development for `ssh.go`

The repository is one Go file: a struct `sshconf` with the methods `Init`,
`Connect`, `Session`, `StartSession`, `SendCommands` and `StreamCommand`,
all thin wrappers around `golang.org/x/crypto/ssh`.

The embedding is shallow.  The external library is an oracle (`Env`) that
answers each library call; every method is a function from the receiver and
the trace of library calls issued so far to the new trace, the new receiver
and an `Outcome` (the call returns, the process exits through `log.Fatal`,
a nil pointer is dereferenced, or the caller blocks forever).
-/

namespace SSHTool

/-! ## Handles and values of the external library -/

/-- A byte, as read by `bufio.Reader.ReadByte`. -/
abbrev Byte := Nat

/-- Identity of a live `*ssh.Client`. -/
structure SSHClient where
  id : Nat
  deriving DecidableEq, Repr

/-- Identity of a live `*ssh.Session`. -/
structure SSHSession where
  id : Nat
  deriving DecidableEq, Repr

/-- Identity of an `ssh.HostKeyCallback` built by `knownhosts.New`. -/
structure HostKeyCallback where
  id : Nat
  deriving DecidableEq, Repr

/-- Identity of a pipe end returned by `StdinPipe` / `StdoutPipe`. -/
structure Pipe where
  id : Nat
  deriving DecidableEq, Repr

/-- A non-nil Go `error`; `msg` is what `err.Error()` returns. -/
structure GoError where
  msg : String
  deriving DecidableEq, Repr

/-- An `ssh.AuthMethod`; the code only ever builds `ssh.Password(pass)`. -/
inductive AuthMethod where
  | Password (secret : String)
  deriving DecidableEq, Repr

/-- The fields of `ssh.ClientConfig` that `Connect` sets.  A nil
`HostKeyCallback` is `none`. -/
structure ClientConfig where
  User : String
  HostKeyCallback : Option HostKeyCallback
  Auth : List AuthMethod
  deriving DecidableEq, Repr

/-- An `ssh.TerminalModes` map, as its list of (opcode, argument) pairs. -/
abbrev TerminalModes := List (Nat × Nat)

/-- Opcode `ssh.ECHO`. -/
def ECHO : Nat := 53
/-- Opcode `ssh.TTY_OP_ISPEED`. -/
def TTY_OP_ISPEED : Nat := 128
/-- Opcode `ssh.TTY_OP_OSPEED`. -/
def TTY_OP_OSPEED : Nat := 129

/-- The `modes` literal that opens both `SendCommands` and `StreamCommand`. -/
def modes : TerminalModes :=
  [(ECHO, 0), (TTY_OP_ISPEED, 14400), (TTY_OP_OSPEED, 14400)]

/-! ## The library oracle and the trace of calls -/

/-- Answers of the external world to each library call the program makes.
A Go result pair `(v, err)` of `knownhosts.New`, `ssh.Dial`, `NewSession`,
`StdinPipe` and `StdoutPipe` is an `Except`: these library functions return a
nil value together with a non-nil error, or a value together with a nil error.
`remoteStdout s cmd` is the byte sequence the remote shell writes to standard
output while `cmd` runs on `s`; `readerProgress` is the number of iterations
the reader goroutine of `SendCommands` has completed when `SendCommands`
reads the buffer to return it (the code has no synchronisation that fixes it). -/
structure Env where
  knownhostsNew : String → Except GoError HostKeyCallback
  dial : String → String → ClientConfig → Except GoError SSHClient
  newSession : SSHClient → Except GoError SSHSession
  requestPty : SSHSession → String → Nat → Nat → TerminalModes → Option GoError
  stdinPipe : SSHSession → Except GoError Pipe
  stdoutPipe : SSHSession → Except GoError Pipe
  output : SSHSession → String → Option GoError
  run : SSHSession → String → Option GoError
  remoteStdout : SSHSession → String → List Byte
  readerProgress : Nat

/-- One observable action of the program.  A method call on a handle records
the receiver it was invoked on (`none` is a nil pointer). -/
inductive Event where
  | knownhostsNew (path : String)
  | println (msg : String)
  | dial (network addr : String) (conf : ClientConfig)
  | newSession (recv : Option SSHClient)
  | requestPty (recv : Option SSHSession) (term : String) (h w : Nat) (m : TerminalModes)
  | stdinPipe (recv : Option SSHSession)
  | stdoutPipe (recv : Option SSHSession)
  | goReader (inp out : Pipe)
  | goWorker (inp out : Pipe)
  | output (recv : Option SSHSession) (cmd : String)
  | run (recv : Option SSHSession) (cmd : String)
  | close (recv : Option SSHSession)
  | logFatal (msg : String)
  deriving DecidableEq, Repr

/-- The actions issued so far, oldest first. -/
abbrev Trace := List Event

/-- How a call ends. -/
inductive Outcome (α : Type) where
  /-- The call returns `v` to its caller. -/
  | returned (v : α)
  /-- The code called `log.Fatal`: the process exits with status 1 and the
  call never returns (deferred calls do not run). -/
  | fatal
  /-- A method body dereferenced a nil receiver: run-time panic. -/
  | nilDeref
  /-- The caller is parked forever (`wg.Wait()` on a counter nobody lowers). -/
  | blocked
  deriving DecidableEq, Repr

/-! ## The data model -/

/-- The struct `sshconf` of `ssh.go`. -/
structure sshconf where
  host : String
  user : String
  pass : String
  conn : Option SSHClient
  sess : Option SSHSession
  deriving DecidableEq, Repr

/-- What a method call leaves behind: the trace, the receiver as the CALLER
sees it after the call, and the outcome. -/
structure Step (α : Type) where
  trace : Trace
  recv : sshconf
  outcome : Outcome α

/-- The zero value `sshconf{}`. -/
def sshconf.zero : sshconf :=
  { host := "", user := "", pass := "", conn := none, sess := none }

/-! ## `Init`, `Connect`, `Session`, `StartSession` -/

/-- Method `func (sc *sshconf) Init(host, user, pass string)`. -/
def sshconf.Init (t : Trace) (sc : sshconf) (host user pass : String) : Step Unit :=
  let sc := { sc with host := host }
  let sc := { sc with user := user }
  let sc := { sc with pass := pass }
  { trace := t, recv := sc, outcome := .returned () }

/-- The body of `func (sc sshconf) Connect() *ssh.Client`, run on the
callee's own copy of the receiver; `recv` is that copy when the body ends. -/
def sshconf.ConnectBody (env : Env) (t : Trace) (sc : sshconf) : Step (Option SSHClient) :=
  let t := t ++ [Event.knownhostsNew "~/.ssh/known_hosts"]
  let r := env.knownhostsNew "~/.ssh/known_hosts"
  let hostkeyCallback : Option HostKeyCallback :=
    match r with
    | .ok cb => some cb
    | .error _ => none
  let t :=
    match r with
    | .ok _ => t
    | .error err => t ++ [Event.println err.msg]
  let conf : ClientConfig :=
    { User := sc.user, HostKeyCallback := hostkeyCallback, Auth := [AuthMethod.Password sc.pass] }
  let t := t ++ [Event.dial "tcp" sc.host conf]
  let d := env.dial "tcp" sc.host conf
  let sc :=
    match d with
    | .ok c => { sc with conn := some c }
    | .error _ => { sc with conn := none }
  let t :=
    match d with
    | .ok _ => t
    | .error err => t ++ [Event.println err.msg]
  { trace := t, recv := sc, outcome := .returned sc.conn }

/-- A call `sc.Connect()`.  The receiver is passed by value, so the caller's
`sc` is what it was before the call whatever the body did to its copy. -/
def sshconf.Connect (env : Env) (t : Trace) (sc : sshconf) : Step (Option SSHClient) :=
  let r := sshconf.ConnectBody env t sc
  { trace := r.trace, recv := sc, outcome := r.outcome }

/-- Method `func (sc *sshconf) Session() *ssh.Session`.  `NewSession` is
invoked on `sc.conn`; on a nil `*ssh.Client` its body dereferences nil. -/
def sshconf.Session (env : Env) (t : Trace) (sc : sshconf) : Step (Option SSHSession) :=
  let t := t ++ [Event.newSession sc.conn]
  match sc.conn with
  | none => { trace := t, recv := sc, outcome := .nilDeref }
  | some c =>
    match env.newSession c with
    | .ok s =>
      let sc := { sc with sess := some s }
      { trace := t, recv := sc, outcome := .returned sc.sess }
    | .error err =>
      let sc := { sc with sess := none }
      let t := t ++ [Event.println err.msg]
      { trace := t, recv := sc, outcome := .returned sc.sess }

/-- The body of `func (sc sshconf) StartSession(host, user, pass string)`,
run on the callee's own copy of the receiver. -/
def sshconf.StartSessionBody (env : Env) (t : Trace) (sc : sshconf)
    (host user pass : String) : Step (Option SSHSession) :=
  let i := sshconf.Init t sc host user pass
  let c := sshconf.Connect env i.trace i.recv
  let s := sshconf.Session env c.trace c.recv
  s

/-- A call `sc.StartSession(host, user, pass)` (value receiver). -/
def sshconf.StartSession (env : Env) (t : Trace) (sc : sshconf)
    (host user pass : String) : Step (Option SSHSession) :=
  let r := sshconf.StartSessionBody env t sc host user pass
  { trace := r.trace, recv := sc, outcome := r.outcome }

/-! ## `SendCommands` -/

/-- Go's `strings.Join(elems, sep)`: the empty string for no element, the
element itself for one, otherwise the first element followed, for each later
element in order, by `sep` and that element. -/
def stringsJoin (elems : List String) (sep : String) : String :=
  match elems with
  | [] => ""
  | [e] => e
  | e :: rest => rest.foldl (fun b s => b ++ sep ++ s) e

/-- The variables the reader goroutine of `SendCommands` writes: the caller's
`output` slice (through the pointer it was given) and its own `line`. -/
structure ReaderState where
  output : List Byte
  line : String
  deriving DecidableEq, Repr

/-- The reader's variables when the goroutine starts: `var output []byte` and
`line string`, both zero values. -/
def ReaderState.init : ReaderState := { output := [], line := "" }

/-- One iteration of the reader's `for` loop after `ReadByte` delivered `b`:
append `b` to `*output`, then reset `line` on a newline and extend it with
`string(b)` otherwise. -/
def readerIter (st : ReaderState) (b : Byte) : ReaderState :=
  let st := { st with output := st.output ++ [b] }
  if b = 10 then
    { st with line := "" }
  else
    { st with line := st.line ++ String.singleton (Char.ofNat b) }

/-- The reader's variables after it has completed `k` iterations on the byte
stream `stream` (all of it once `k` reaches its length, where `ReadByte`
reports the end of the stream and the loop breaks). -/
def readerAfter (k : Nat) (stream : List Byte) : ReaderState :=
  (stream.take k).foldl readerIter ReaderState.init

/-- Method `func (sc *sshconf) SendCommands(commands ...string) ([]byte, error)`.
The result pair is (buffer, error), a nil error being `none`. -/
def sshconf.SendCommands (env : Env) (t : Trace) (sc : sshconf)
    (commands : List String) : Step (List Byte × Option GoError) :=
  let session := sc.sess
  let t := t ++ [Event.requestPty session "xterm" 80 40 modes]
  match session with
  | none => { trace := t, recv := sc, outcome := .nilDeref }
  | some s =>
    match env.requestPty s "xterm" 80 40 modes with
    | some err => { trace := t, recv := sc, outcome := .returned ([], some err) }
    | none =>
      let t := t ++ [Event.stdinPipe session]
      match env.stdinPipe s with
      | .error err =>
        { trace := t ++ [Event.logFatal ("Failed to pipe stdin" ++ err.msg)],
          recv := sc, outcome := .fatal }
      | .ok inp =>
        let t := t ++ [Event.stdoutPipe session]
        match env.stdoutPipe s with
        | .error err =>
          { trace := t ++ [Event.logFatal ("Failed to pipe stdout" ++ err.msg)],
            recv := sc, outcome := .fatal }
        | .ok out =>
          let t := t ++ [Event.goReader inp out]
          let cmd := stringsJoin commands "; "
          let t := t ++ [Event.output session cmd]
          match env.output s cmd with
          | some err => { trace := t, recv := sc, outcome := .returned ([], some err) }
          | none =>
            let t := t ++ [Event.close sc.sess]
            let output := (readerAfter env.readerProgress (env.remoteStdout s cmd)).output
            { trace := t, recv := sc, outcome := .returned (output, none) }

/-! ## `StreamCommand` -/

/-- A call registered with `defer` in `StreamCommand`. -/
inductive Deferred where
  | close (recv : Option SSHSession)
  | wgDone
  deriving DecidableEq, Repr

/-- Run the deferred calls, the last registered first (the head of the list),
on the trace and the wait-group counter. -/
def runDeferred (t : Trace) (wg : Int) : List Deferred → Trace × Int
  | [] => (t, wg)
  | Deferred.close r :: ds => runDeferred (t ++ [Event.close r]) wg ds
  | Deferred.wgDone :: ds => runDeferred t (wg - 1) ds

/-- Method `func (sc *sshconf) StreamCommand(command string) error`; a nil
error is `none`.  `wg` is the counter of the local `sync.WaitGroup`: only
this function holds it (the worker goroutine's closure does not mention
`wg`), so `wg.Wait()` returns exactly when the counter is zero at that point
and parks the caller forever otherwise.  Nothing ever sends on `quit`. -/
def sshconf.StreamCommand (env : Env) (t : Trace) (sc : sshconf)
    (command : String) : Step (Option GoError) :=
  let deferred := [Deferred.close sc.sess]
  let t := t ++ [Event.requestPty sc.sess "xterm" 80 40 modes]
  match sc.sess with
  | none => { trace := (runDeferred t 0 deferred).1, recv := sc, outcome := .nilDeref }
  | some s =>
    match env.requestPty s "xterm" 80 40 modes with
    | some err =>
      { trace := (runDeferred t 0 deferred).1, recv := sc, outcome := .returned (some err) }
    | none =>
      let t := t ++ [Event.stdinPipe sc.sess]
      match env.stdinPipe s with
      | .error err =>
        { trace := t ++ [Event.logFatal ("Failed to pipe stdin" ++ err.msg)],
          recv := sc, outcome := .fatal }
      | .ok inp =>
        let t := t ++ [Event.stdoutPipe sc.sess]
        match env.stdoutPipe s with
        | .error err =>
          { trace := t ++ [Event.logFatal ("Failed to pipe stdout" ++ err.msg)],
            recv := sc, outcome := .fatal }
        | .ok out =>
          let wg : Int := 0
          let deferred := Deferred.wgDone :: deferred
          let wg := wg + 1
          let t := t ++ [Event.goWorker inp out]
          let t := t ++ [Event.run sc.sess command]
          match env.run s command with
          | some err =>
            { trace := t ++ [Event.logFatal ("Failed to run: " ++ err.msg)],
              recv := sc, outcome := .fatal }
          | none =>
            if wg = 0 then
              let t := t ++ [Event.close sc.sess]
              { trace := (runDeferred t wg deferred).1, recv := sc, outcome := .returned none }
            else
              { trace := t, recv := sc, outcome := .blocked }

/-! ## Observations on traces -/

/-- The command strings handed to a remote execution (`Output` or `Run`), in
the order they were issued. -/
def executions : Trace → List String
  | [] => []
  | Event.output _ cmd :: t => cmd :: executions t
  | Event.run _ cmd :: t => cmd :: executions t
  | _ :: t => executions t

/-- How many times `Close` was invoked on the session `s`. -/
def closeCount (s : SSHSession) (t : Trace) : Nat :=
  t.count (Event.close (some s))

/-- The receivers `NewSession` was invoked on, in order. -/
def openedOn : Trace → List (Option SSHClient)
  | [] => []
  | Event.newSession c :: t => c :: openedOn t
  | _ :: t => openedOn t

/-- The dial attempts (network, address, configuration), in order. -/
def dials : Trace → List (String × String × ClientConfig)
  | [] => []
  | Event.dial n a c :: t => (n, a, c) :: dials t
  | _ :: t => dials t

/-! ## Sample worlds -/

/-- A world in which every library call succeeds: the trust store loads, the
dial yields client 7, `NewSession` yields session 1, the remote shell prints
`hi` and a newline, and the reader goroutine has not run yet when
`SendCommands` returns. -/
def envOK : Env where
  knownhostsNew := fun _ => .ok ⟨0⟩
  dial := fun _ _ _ => .ok ⟨7⟩
  newSession := fun _ => .ok ⟨1⟩
  requestPty := fun _ _ _ _ _ => none
  stdinPipe := fun _ => .ok ⟨0⟩
  stdoutPipe := fun _ => .ok ⟨1⟩
  output := fun _ _ => none
  run := fun _ _ => none
  remoteStdout := fun _ _ => [104, 105, 10]
  readerProgress := 0

/-- As `envOK`, but the trust store cannot be read. -/
def envNoTrustStore : Env :=
  { envOK with knownhostsNew := fun _ => .error ⟨"open ~/.ssh/known_hosts: no such file or directory"⟩ }

/-- As `envOK`, but the dial fails. -/
def envNoDial : Env :=
  { envOK with dial := fun _ _ _ => .error ⟨"dial tcp: connection refused"⟩ }

/-- As `envOK`, but the PTY request is refused. -/
def envNoPty : Env :=
  { envOK with requestPty := fun _ _ _ _ _ => some ⟨"ssh: pty-req failed"⟩ }

/-- As `envOK`, but `StdinPipe` fails. -/
def envNoStdin : Env :=
  { envOK with stdinPipe := fun _ => .error ⟨"ssh: Stdin already set"⟩ }

/-- As `envOK`, but `StdoutPipe` fails. -/
def envNoStdout : Env :=
  { envOK with stdoutPipe := fun _ => .error ⟨"ssh: Stdout already set"⟩ }

/-- As `envOK`, but the remote command fails (both through `Output` and
through `Run`). -/
def envExecFails : Env :=
  { envOK with
    output := fun _ _ => some ⟨"Process exited with status 1"⟩
    run := fun _ _ => some ⟨"Process exited with status 1"⟩ }

/-- As `envOK`, but the reader goroutine has drained the whole stream when
`SendCommands` returns. -/
def envDrained : Env :=
  { envOK with readerProgress := 3 }

/-- A configuration holding the open session 1 on client 7. -/
def scReady : sshconf :=
  { host := "h:22", user := "u", pass := "p", conn := some ⟨7⟩, sess := some ⟨1⟩ }

/-- A configuration whose `conn` field holds client 3 from an earlier use. -/
def scStale : sshconf :=
  { host := "old:22", user := "o", pass := "q", conn := some ⟨3⟩, sess := none }

/-! ## Theorems: the connection configurator and the session opener -/

/-- C9: `Init` sets `host`, `user` and `pass` to exactly the given values,
leaves `conn` and `sess` as they were, issues no action at all (the trace is
unchanged) and returns; a second `Init` with the same arguments changes
nothing further. -/
theorem Init_sets_params_only (t : Trace) (sc : sshconf) (host user pass : String) :
    (sshconf.Init t sc host user pass).recv
        = { host := host, user := user, pass := pass, conn := sc.conn, sess := sc.sess } ∧
      (sshconf.Init t sc host user pass).trace = t ∧
      (sshconf.Init t sc host user pass).outcome = Outcome.returned () ∧
      (sshconf.Init (sshconf.Init t sc host user pass).trace
          (sshconf.Init t sc host user pass).recv host user pass).recv
        = (sshconf.Init t sc host user pass).recv ∧
      (sshconf.Init (sshconf.Init t sc host user pass).trace
          (sshconf.Init t sc host user pass).recv host user pass).trace
        = (sshconf.Init t sc host user pass).trace := by
  refine ⟨rfl, rfl, rfl, rfl, rfl⟩

/-- `dials` distributes over concatenation of traces. -/
theorem dials_append (t u : Trace) : dials (t ++ u) = dials t ++ dials u := by
  induction t with
  | nil => rfl
  | cons e t ih => cases e <;> simp [dials, ih]

/-- `openedOn` distributes over concatenation of traces. -/
theorem openedOn_append (t u : Trace) : openedOn (t ++ u) = openedOn t ++ openedOn u := by
  induction t with
  | nil => rfl
  | cons e t ih => cases e <;> simp [openedOn, ih]

/-- `executions` distributes over concatenation of traces. -/
theorem executions_append (t u : Trace) :
    executions (t ++ u) = executions t ++ executions u := by
  induction t with
  | nil => rfl
  | cons e t ih => cases e <;> simp [executions, ih]

/-- `closeCount` distributes over concatenation of traces. -/
theorem closeCount_append (s : SSHSession) (t u : Trace) :
    closeCount s (t ++ u) = closeCount s t + closeCount s u := by
  simp [closeCount, List.count_append]

/-- C7: `Connect` always returns (it never exits the process, panics or
blocks).  It attempts exactly one dial, on network `tcp`, to the stored host,
with the stored user and the stored password as the only auth method; when
the trust store fails to load the host-key policy of that dial is unset, and
when it loads the policy is the loaded one.  `Connect` returns nil when that
dial fails and exactly the dial's handle when it succeeds. -/
theorem Connect_never_aborts (env : Env) (t : Trace) (sc : sshconf) :
    ∃ conf : ClientConfig,
      dials (sshconf.Connect env t sc).trace = dials t ++ [("tcp", sc.host, conf)] ∧
      conf.User = sc.user ∧ conf.Auth = [AuthMethod.Password sc.pass] ∧
      (∀ e, env.knownhostsNew "~/.ssh/known_hosts" = .error e → conf.HostKeyCallback = none) ∧
      (∀ cb, env.knownhostsNew "~/.ssh/known_hosts" = .ok cb → conf.HostKeyCallback = some cb) ∧
      (∀ e, env.dial "tcp" sc.host conf = .error e →
        (sshconf.Connect env t sc).outcome = Outcome.returned none) ∧
      (∀ c, env.dial "tcp" sc.host conf = .ok c →
        (sshconf.Connect env t sc).outcome = Outcome.returned (some c)) ∧
      (∃ v, (sshconf.Connect env t sc).outcome = Outcome.returned v) := by
  cases hk : env.knownhostsNew "~/.ssh/known_hosts" with
  | error e0 =>
    refine ⟨{ User := sc.user, HostKeyCallback := none, Auth := [AuthMethod.Password sc.pass] },
      ?_, rfl, rfl, ?_, ?_, ?_, ?_, ?_⟩
    · cases hd : env.dial "tcp" sc.host
          { User := sc.user, HostKeyCallback := none, Auth := [AuthMethod.Password sc.pass] } <;>
        simp [sshconf.Connect, sshconf.ConnectBody, hk, hd, dials_append, dials]
    · intro _ _
      rfl
    · intro cb h
      cases h
    · intro e hd
      simp [sshconf.Connect, sshconf.ConnectBody, hk, hd]
    · intro c hd
      simp [sshconf.Connect, sshconf.ConnectBody, hk, hd]
    · exact ⟨_, rfl⟩
  | ok cb0 =>
    refine ⟨{ User := sc.user, HostKeyCallback := some cb0, Auth := [AuthMethod.Password sc.pass] },
      ?_, rfl, rfl, ?_, ?_, ?_, ?_, ?_⟩
    · cases hd : env.dial "tcp" sc.host
          { User := sc.user, HostKeyCallback := some cb0, Auth := [AuthMethod.Password sc.pass] } <;>
        simp [sshconf.Connect, sshconf.ConnectBody, hk, hd, dials_append, dials]
    · intro e h
      cases h
    · intro cb h
      cases h
      rfl
    · intro e hd
      simp [sshconf.Connect, sshconf.ConnectBody, hk, hd]
    · intro c hd
      simp [sshconf.Connect, sshconf.ConnectBody, hk, hd]
    · exact ⟨_, rfl⟩

/-- C7 at concrete worlds: with a refused dial `Connect` returns nil; with a
successful dial it returns the dialled client 7; with an unreadable trust
store the one dial still goes out, to the stored host with the stored user
and password and no host-key policy, and its handle is returned. -/
theorem Connect_never_aborts_witness :
    (sshconf.Connect envNoDial [] scReady).outcome = Outcome.returned none ∧
      (sshconf.Connect envOK [] scStale).outcome = Outcome.returned (some ⟨7⟩) ∧
      dials (sshconf.Connect envNoTrustStore [] scReady).trace
        = [("tcp", "h:22",
            { User := "u", HostKeyCallback := none, Auth := [AuthMethod.Password "p"] })] ∧
      (sshconf.Connect envNoTrustStore [] scReady).outcome = Outcome.returned (some ⟨7⟩) := by
  refine ⟨?_, ?_, ?_, ?_⟩
  · obtain ⟨conf, _, _, _, _, _, he, _, _⟩ := Connect_never_aborts envNoDial [] scReady
    exact he _ rfl
  · obtain ⟨conf, _, _, _, _, _, _, hok, _⟩ := Connect_never_aborts envOK [] scStale
    exact hok _ rfl
  · obtain ⟨conf, hd, hu, ha, hk, _, _, _, _⟩ := Connect_never_aborts envNoTrustStore [] scReady
    have hcb := hk _ rfl
    cases conf
    simp only at hu ha hcb
    subst hu ha hcb
    exact hd
  · obtain ⟨conf, _, _, _, _, _, _, hok, _⟩ := Connect_never_aborts envNoTrustStore [] scReady
    exact hok _ rfl

/-- `Connect` invokes `NewSession` on nothing. -/
theorem Connect_openedOn (env : Env) (u : Trace) (c : sshconf) :
    openedOn (sshconf.Connect env u c).trace = openedOn u := by
  simp only [sshconf.Connect, sshconf.ConnectBody]
  cases env.knownhostsNew "~/.ssh/known_hosts" <;>
    simp only [openedOn_append, openedOn, List.append_nil] <;>
    split <;> simp [openedOn_append, openedOn]

/-- `Session` invokes `NewSession` once, on the receiver's `conn` field. -/
theorem Session_openedOn (env : Env) (u : Trace) (c : sshconf) :
    openedOn (sshconf.Session env u c).trace = openedOn u ++ [c.conn] := by
  simp only [sshconf.Session]
  cases hc : c.conn with
  | none => simp [openedOn_append, openedOn]
  | some cl => cases hn : env.newSession cl <;> simp [hn, openedOn_append, openedOn]

/-- C10: `Connect` and `StartSession` have value receivers, so whatever the
receiver holds, the caller's configuration after the call is the one before
it, field for field.  On a fresh configuration, `Init` followed by `Connect`
leaves `conn` nil even when the dial succeeded and `Connect` returned its
handle `c`, and the `Session` call that follows invokes `NewSession` on that
stale (nil) `conn` field, not on `c`, and so dereferences nil. -/
theorem Connect_leaves_caller_unchanged (env : Env) (t : Trace) (sc : sshconf)
    (host user pass : String) :
    (sshconf.Connect env t sc).recv = sc ∧
      (sshconf.StartSession env t sc host user pass).recv = sc ∧
      (∀ c : SSHClient,
        (sshconf.Connect env (sshconf.Init t sshconf.zero host user pass).trace
            (sshconf.Init t sshconf.zero host user pass).recv).outcome
          = Outcome.returned (some c) →
        (sshconf.ConnectBody env (sshconf.Init t sshconf.zero host user pass).trace
            (sshconf.Init t sshconf.zero host user pass).recv).recv.conn = some c ∧
        (sshconf.Connect env (sshconf.Init t sshconf.zero host user pass).trace
            (sshconf.Init t sshconf.zero host user pass).recv).recv.conn = none ∧
        openedOn (sshconf.Session env
            (sshconf.Connect env (sshconf.Init t sshconf.zero host user pass).trace
              (sshconf.Init t sshconf.zero host user pass).recv).trace
            (sshconf.Connect env (sshconf.Init t sshconf.zero host user pass).trace
              (sshconf.Init t sshconf.zero host user pass).recv).recv).trace
          = openedOn t ++ [none] ∧
        (sshconf.Session env
            (sshconf.Connect env (sshconf.Init t sshconf.zero host user pass).trace
              (sshconf.Init t sshconf.zero host user pass).recv).trace
            (sshconf.Connect env (sshconf.Init t sshconf.zero host user pass).trace
              (sshconf.Init t sshconf.zero host user pass).recv).recv).outcome
          = Outcome.nilDeref) ∧
      openedOn (sshconf.Session env (sshconf.Connect env t sc).trace
          (sshconf.Connect env t sc).recv).trace
        = openedOn t ++ [sc.conn] := by
  refine ⟨rfl, rfl, ?_, ?_⟩
  · intro c hc
    refine ⟨?_, rfl, ?_, ?_⟩
    · simp only [sshconf.Connect, sshconf.ConnectBody] at hc ⊢
      split at hc <;> simp_all
    · rw [Session_openedOn, Connect_openedOn]
      rfl
    · simp [sshconf.Session, sshconf.Connect, sshconf.Init, sshconf.zero]
  · rw [Session_openedOn, Connect_openedOn]
    rfl

/-- C10 at a concrete world: the dial succeeds with client 7, yet after
`Init` and `Connect` on the zero configuration `conn` is still nil, and
`Session` invokes `NewSession` on nil. -/
theorem Connect_leaves_caller_unchanged_witness :
    (sshconf.Connect envOK [] (sshconf.Init [] sshconf.zero "h:22" "u" "p").recv).outcome
        = Outcome.returned (some ⟨7⟩) ∧
      (sshconf.Connect envOK [] (sshconf.Init [] sshconf.zero "h:22" "u" "p").recv).recv.conn
        = none ∧
      openedOn (sshconf.Session envOK
          (sshconf.Connect envOK [] (sshconf.Init [] sshconf.zero "h:22" "u" "p").recv).trace
          (sshconf.Connect envOK [] (sshconf.Init [] sshconf.zero "h:22" "u" "p").recv).recv).trace
        = [none] ∧
      (sshconf.StartSession envOK [] scStale "h:22" "u" "p").recv = scStale :=
  ⟨rfl,
    ((Connect_leaves_caller_unchanged envOK [] sshconf.zero "h:22" "u" "p").2.2.1 ⟨7⟩ rfl).2.1,
    ((Connect_leaves_caller_unchanged envOK [] sshconf.zero "h:22" "u" "p").2.2.1 ⟨7⟩ rfl).2.2.1,
    (Connect_leaves_caller_unchanged envOK [] scStale "h:22" "u" "p").2.1⟩

/-- C4, what the code does instead: the `NewSession` call of `StartSession`
is invoked on the `conn` field the receiver held before the call, for every
world and every receiver.  So when that field is nil the call dereferences
nil and returns no session, and when the `Connect` step of the same call
obtained a handle `c` other than the prior field, the session is not opened
on `c`. -/
theorem StartSession_opens_on_prior_conn (env : Env) (t : Trace) (sc : sshconf)
    (host user pass : String) :
    openedOn (sshconf.StartSession env t sc host user pass).trace = openedOn t ++ [sc.conn] ∧
      (sc.conn = none →
        (sshconf.StartSession env t sc host user pass).outcome = Outcome.nilDeref) ∧
      (∀ c : SSHClient,
        (sshconf.Connect env (sshconf.Init t sc host user pass).trace
          (sshconf.Init t sc host user pass).recv).outcome = Outcome.returned (some c) →
        sc.conn ≠ some c →
        openedOn (sshconf.StartSession env t sc host user pass).trace
          ≠ openedOn t ++ [some c]) := by
  have h1 : openedOn (sshconf.StartSession env t sc host user pass).trace
      = openedOn t ++ [sc.conn] := by
    simp only [sshconf.StartSession, sshconf.StartSessionBody]
    rw [Session_openedOn, Connect_openedOn]
    rfl
  refine ⟨h1, ?_, ?_⟩
  · intro hn
    simp [sshconf.StartSession, sshconf.StartSessionBody, sshconf.Session, sshconf.Connect,
      sshconf.Init, hn]
  · intro c _ hne h
    rw [h1] at h
    simp at h
    exact hne h

/-- C4 at the failing inputs.  On the zero configuration the dial of the
call yields client 7, but `NewSession` is invoked on nil and the call panics;
on a configuration that still holds client 3, `NewSession` is invoked on
client 3 although the dial of this very call yielded client 7. -/
theorem StartSession_opens_on_prior_conn_witness :
    (sshconf.Connect envOK [] (sshconf.Init [] sshconf.zero "h:22" "u" "p").recv).outcome
        = Outcome.returned (some ⟨7⟩) ∧
      openedOn (sshconf.StartSession envOK [] sshconf.zero "h:22" "u" "p").trace = [none] ∧
      (sshconf.StartSession envOK [] sshconf.zero "h:22" "u" "p").outcome = Outcome.nilDeref ∧
      (sshconf.Connect envOK [] (sshconf.Init [] scStale "h:22" "u" "p").recv).outcome
        = Outcome.returned (some ⟨7⟩) ∧
      openedOn (sshconf.StartSession envOK [] scStale "h:22" "u" "p").trace = [some ⟨3⟩] ∧
      (sshconf.StartSession envOK [] scStale "h:22" "u" "p").outcome
        = Outcome.returned (some ⟨1⟩) :=
  ⟨rfl,
    (StartSession_opens_on_prior_conn envOK [] sshconf.zero "h:22" "u" "p").1,
    (StartSession_opens_on_prior_conn envOK [] sshconf.zero "h:22" "u" "p").2.1 rfl,
    rfl,
    (StartSession_opens_on_prior_conn envOK [] scStale "h:22" "u" "p").1,
    rfl⟩

/-! ## Theorems: the batch executor -/

/-- The accumulator form of `String.intercalate` is the left fold that
`strings.Join` performs. -/
theorem intercalate_go_eq_foldl (sep : String) (rest : List String) (acc : String) :
    String.intercalate.go acc sep rest = rest.foldl (fun b s => b ++ sep ++ s) acc := by
  induction rest generalizing acc with
  | nil => rfl
  | cons a rest ih => simp [String.intercalate.go, ih]

/-- Go's `strings.Join` is the usual join of a list of strings with a
separator between consecutive elements, in list order. -/
theorem stringsJoin_eq_intercalate (elems : List String) (sep : String) :
    stringsJoin elems sep = String.intercalate sep elems := by
  cases elems with
  | nil => rfl
  | cons e rest =>
    cases rest with
    | nil => rfl
    | cons e2 rest =>
      simp [stringsJoin, String.intercalate, intercalate_go_eq_foldl, String.intercalate.go]

/-- The reader loop appends every byte it reads to the buffer, unchanged and
in order, whatever it does with `line`. -/
theorem reader_foldl_output (bs : List Byte) (st : ReaderState) :
    (bs.foldl readerIter st).output = st.output ++ bs := by
  induction bs generalizing st with
  | nil => simp
  | cons b bs ih =>
    rw [List.foldl_cons, ih]
    by_cases hb : b = 10 <;> simp [readerIter, hb]

/-- After `k` iterations the buffer holds the first `k` bytes of the stream. -/
theorem readerAfter_output (k : Nat) (stream : List Byte) :
    (readerAfter k stream).output = stream.take k := by
  simp [readerAfter, reader_foldl_output, ReaderState.init]

/-- A reader that has run to the end of the stream holds exactly the stream. -/
theorem readerAfter_output_drained (k : Nat) (stream : List Byte) (hk : stream.length ≤ k) :
    (readerAfter k stream).output = stream := by
  rw [readerAfter_output, List.take_of_length_le hk]

/-- In every run, `SendCommands` issues no remote execution or exactly one,
and the one it issues is of the joined command string: commands are never
sent one by one. -/
theorem SendCommands_at_most_one_execution (env : Env) (t : Trace) (sc : sshconf)
    (commands : List String) :
    executions (sshconf.SendCommands env t sc commands).trace = executions t ∨
      executions (sshconf.SendCommands env t sc commands).trace
        = executions t ++ [stringsJoin commands "; "] := by
  cases hs : sc.sess with
  | none => simp [sshconf.SendCommands, hs, executions_append, executions]
  | some s =>
    cases hpty : env.requestPty s "xterm" 80 40 modes with
    | some e => simp [sshconf.SendCommands, hs, hpty, executions_append, executions]
    | none =>
      cases hin : env.stdinPipe s with
      | error e => simp [sshconf.SendCommands, hs, hpty, hin, executions_append, executions]
      | ok inp =>
        cases hout : env.stdoutPipe s with
        | error e =>
          simp [sshconf.SendCommands, hs, hpty, hin, hout, executions_append, executions]
        | ok out =>
          cases hx : env.output s (stringsJoin commands "; ") <;>
            simp [sshconf.SendCommands, hs, hpty, hin, hout, hx, executions_append, executions]

/-- C1 as stated fails: with the commands `echo a`, `echo b` (a non-empty
list) and a refused PTY request, `SendCommands` issues no remote execution at
all. -/
theorem SendCommands_pty_refused_no_execution :
    ["echo a", "echo b"] ≠ ([] : List String) ∧
      executions (sshconf.SendCommands envNoPty [] scReady ["echo a", "echo b"]).trace = [] ∧
      (executions (sshconf.SendCommands envNoPty [] scReady ["echo a", "echo b"]).trace).length
        ≠ 1 := by
  decide

/-- C1, amended: in every run of `SendCommands` on an open session in which
the PTY request and both pipe set-ups succeed, exactly one remote execution
is issued, and its command string is the commands joined with `; ` in input
order. -/
theorem SendCommands_executes_joined_once (env : Env) (t : Trace) (sc : sshconf)
    (commands : List String) (s : SSHSession) (inp out : Pipe)
    (hs : sc.sess = some s)
    (hpty : env.requestPty s "xterm" 80 40 modes = none)
    (hin : env.stdinPipe s = .ok inp)
    (hout : env.stdoutPipe s = .ok out) :
    executions (sshconf.SendCommands env t sc commands).trace
      = executions t ++ [String.intercalate "; " commands] := by
  simp only [sshconf.SendCommands, hs, hpty, hin, hout]
  cases hx : env.output s (stringsJoin commands "; ") <;>
    simp [executions_append, executions, stringsJoin_eq_intercalate]

/-- C1 amended, at concrete inputs: `echo a`, `echo b` is executed once as
`echo a; echo b`, and a single command is executed unchanged. -/
theorem SendCommands_executes_joined_once_witness :
    executions (sshconf.SendCommands envOK [] scReady ["echo a", "echo b"]).trace
        = ["echo a; echo b"] ∧
      executions (sshconf.SendCommands envExecFails [] scReady ["uname -a"]).trace
        = ["uname -a"] :=
  ⟨SendCommands_executes_joined_once envOK [] scReady ["echo a", "echo b"] ⟨1⟩ ⟨0⟩ ⟨1⟩
      rfl rfl rfl rfl,
    SendCommands_executes_joined_once envExecFails [] scReady ["uname -a"] ⟨1⟩ ⟨0⟩ ⟨1⟩
      rfl rfl rfl rfl⟩

/-- C2 as stated fails: when `StdinPipe` fails (and likewise `StdoutPipe`),
`SendCommands` does not return an empty buffer and the error; it calls
`log.Fatal`, the process exits and nothing is returned to the caller. -/
theorem SendCommands_pipe_failure_is_fatal :
    envNoStdin.stdinPipe ⟨1⟩ = .error ⟨"ssh: Stdin already set"⟩ ∧
      (sshconf.SendCommands envNoStdin [] scReady ["ls"]).outcome = Outcome.fatal ∧
      (sshconf.SendCommands envNoStdout [] scReady ["ls"]).outcome = Outcome.fatal ∧
      ¬ ∃ v, (sshconf.SendCommands envNoStdin [] scReady ["ls"]).outcome = Outcome.returned v := by
  refine ⟨rfl, rfl, rfl, ?_⟩
  rintro ⟨v, hv⟩
  cases hv

/-- C2, amended: on an open session `SendCommands` returns the accumulated
buffer with a nil error when every step succeeds; it returns an empty buffer
with the failing step's error when the PTY request fails or when the remote
execution fails; and when the stdin or the stdout pipe set-up fails it
terminates the process through `log.Fatal` instead of returning. -/
theorem SendCommands_results (env : Env) (t : Trace) (sc : sshconf)
    (commands : List String) (s : SSHSession) (hs : sc.sess = some s) :
    (∀ inp out, env.requestPty s "xterm" 80 40 modes = none →
        env.stdinPipe s = .ok inp → env.stdoutPipe s = .ok out →
        env.output s (stringsJoin commands "; ") = none →
        (sshconf.SendCommands env t sc commands).outcome
          = Outcome.returned
              ((readerAfter env.readerProgress
                  (env.remoteStdout s (stringsJoin commands "; "))).output, none)) ∧
      (∀ e, env.requestPty s "xterm" 80 40 modes = some e →
        (sshconf.SendCommands env t sc commands).outcome = Outcome.returned ([], some e)) ∧
      (∀ inp out e, env.requestPty s "xterm" 80 40 modes = none →
        env.stdinPipe s = .ok inp → env.stdoutPipe s = .ok out →
        env.output s (stringsJoin commands "; ") = some e →
        (sshconf.SendCommands env t sc commands).outcome = Outcome.returned ([], some e)) ∧
      (∀ e, env.requestPty s "xterm" 80 40 modes = none →
        env.stdinPipe s = .error e →
        (sshconf.SendCommands env t sc commands).outcome = Outcome.fatal) ∧
      (∀ inp e, env.requestPty s "xterm" 80 40 modes = none →
        env.stdinPipe s = .ok inp → env.stdoutPipe s = .error e →
        (sshconf.SendCommands env t sc commands).outcome = Outcome.fatal) := by
  refine ⟨?_, ?_, ?_, ?_, ?_⟩
  · intro inp out hpty hin hout hx
    simp [sshconf.SendCommands, hs, hpty, hin, hout, hx]
  · intro e hpty
    simp [sshconf.SendCommands, hs, hpty]
  · intro inp out e hpty hin hout hx
    simp [sshconf.SendCommands, hs, hpty, hin, hout, hx]
  · intro e hpty hin
    simp [sshconf.SendCommands, hs, hpty, hin]
  · intro inp e hpty hin hout
    simp [sshconf.SendCommands, hs, hpty, hin, hout]

/-- C2 amended, at concrete worlds, one for each of the five cases. -/
theorem SendCommands_results_witness :
    (sshconf.SendCommands envDrained [] scReady ["ls"]).outcome
        = Outcome.returned ([104, 105, 10], none) ∧
      (sshconf.SendCommands envNoPty [] scReady ["ls"]).outcome
        = Outcome.returned ([], some ⟨"ssh: pty-req failed"⟩) ∧
      (sshconf.SendCommands envExecFails [] scReady ["ls"]).outcome
        = Outcome.returned ([], some ⟨"Process exited with status 1"⟩) ∧
      (sshconf.SendCommands envNoStdin [] scReady ["ls"]).outcome = Outcome.fatal ∧
      (sshconf.SendCommands envNoStdout [] scReady ["ls"]).outcome = Outcome.fatal :=
  ⟨(SendCommands_results envDrained [] scReady ["ls"] ⟨1⟩ rfl).1 ⟨0⟩ ⟨1⟩ rfl rfl rfl rfl,
    (SendCommands_results envNoPty [] scReady ["ls"] ⟨1⟩ rfl).2.1 _ rfl,
    (SendCommands_results envExecFails [] scReady ["ls"] ⟨1⟩ rfl).2.2.1 ⟨0⟩ ⟨1⟩ _ rfl rfl rfl rfl,
    (SendCommands_results envNoStdin [] scReady ["ls"] ⟨1⟩ rfl).2.2.2.1 _ rfl rfl,
    (SendCommands_results envNoStdout [] scReady ["ls"] ⟨1⟩ rfl).2.2.2.2 ⟨0⟩ _ rfl rfl rfl⟩

/-- C3, what the code does instead: in every run of `SendCommands` in which
the remote execution fails, the call returns the (non-nil) error with an
empty buffer, and `Close` has not been invoked on the session at all: the
count of `Close` calls on it is what it was before the call. -/
theorem SendCommands_exec_failure_leaks_session (env : Env) (t : Trace) (sc : sshconf)
    (commands : List String) (s : SSHSession) (inp out : Pipe) (e : GoError)
    (hs : sc.sess = some s)
    (hpty : env.requestPty s "xterm" 80 40 modes = none)
    (hin : env.stdinPipe s = .ok inp)
    (hout : env.stdoutPipe s = .ok out)
    (hexec : env.output s (stringsJoin commands "; ") = some e) :
    (sshconf.SendCommands env t sc commands).outcome = Outcome.returned ([], some e) ∧
      closeCount s (sshconf.SendCommands env t sc commands).trace = closeCount s t ∧
      (sshconf.SendCommands env t sc commands).recv.sess = some s := by
  simp [sshconf.SendCommands, hs, hpty, hin, hout, hexec, closeCount, List.count_append]

/-- C3 at the failing input: the remote command exits with status 1; the
error is returned and `Close` was invoked zero times on session 1. -/
theorem SendCommands_exec_failure_leaks_session_witness :
    (sshconf.SendCommands envExecFails [] scReady ["false"]).outcome
        = Outcome.returned ([], some ⟨"Process exited with status 1"⟩) ∧
      closeCount ⟨1⟩ (sshconf.SendCommands envExecFails [] scReady ["false"]).trace = 0 ∧
      (sshconf.SendCommands envExecFails [] scReady ["false"]).recv.sess = some ⟨1⟩ :=
  SendCommands_exec_failure_leaks_session envExecFails [] scReady ["false"] ⟨1⟩ ⟨0⟩ ⟨1⟩ _
    rfl rfl rfl rfl rfl

/-- C6, what the code does instead: in every successful run `SendCommands`
returns the first `readerProgress` bytes of what the remote shell wrote, that
is, what the reader goroutine happened to have appended when the buffer was
read; the reader copies bytes unchanged and in order, but nothing makes the
call wait for it, so the buffer is the whole sequence only when the reader
had already drained it. -/
theorem SendCommands_returns_reader_progress (env : Env) (t : Trace) (sc : sshconf)
    (commands : List String) (s : SSHSession) (inp out : Pipe)
    (hs : sc.sess = some s)
    (hpty : env.requestPty s "xterm" 80 40 modes = none)
    (hin : env.stdinPipe s = .ok inp)
    (hout : env.stdoutPipe s = .ok out)
    (hexec : env.output s (stringsJoin commands "; ") = none) :
    (sshconf.SendCommands env t sc commands).outcome
        = Outcome.returned
            ((env.remoteStdout s (stringsJoin commands "; ")).take env.readerProgress, none) ∧
      ((env.remoteStdout s (stringsJoin commands "; ")).length ≤ env.readerProgress →
        (sshconf.SendCommands env t sc commands).outcome
          = Outcome.returned (env.remoteStdout s (stringsJoin commands "; "), none)) := by
  have h : (sshconf.SendCommands env t sc commands).outcome
      = Outcome.returned
          ((env.remoteStdout s (stringsJoin commands "; ")).take env.readerProgress, none) := by
    simp [sshconf.SendCommands, hs, hpty, hin, hout, hexec, readerAfter_output]
  refine ⟨h, ?_⟩
  intro hk
  rw [h, List.take_of_length_le hk]

/-- C6 at the failing input: the remote shell writes `hi` and a newline, the
run succeeds, and the returned buffer is empty because the reader had not
run yet. -/
theorem SendCommands_returns_reader_progress_witness :
    envOK.remoteStdout ⟨1⟩ (stringsJoin ["echo hi"] "; ") = [104, 105, 10] ∧
      (sshconf.SendCommands envOK [] scReady ["echo hi"]).outcome
        = Outcome.returned ([], none) :=
  ⟨rfl,
    (SendCommands_returns_reader_progress envOK [] scReady ["echo hi"] ⟨1⟩ ⟨0⟩ ⟨1⟩
      rfl rfl rfl rfl rfl).1⟩

/-! ## Theorems: the interactive streamer -/

/-- C5, what the code does instead: in every run of `StreamCommand` in which
the PTY request, both pipe set-ups and the remote command succeed, the call
never returns.  `wg.Done()` is deferred to the return of `StreamCommand`
itself, so the counter raised by `wg.Add(1)` is still 1 at `wg.Wait()` and the
caller is parked there forever; the `Close` calls that come after it are
never reached. -/
theorem StreamCommand_blocks_after_success (env : Env) (t : Trace) (sc : sshconf)
    (command : String) (s : SSHSession) (inp out : Pipe)
    (hs : sc.sess = some s)
    (hpty : env.requestPty s "xterm" 80 40 modes = none)
    (hin : env.stdinPipe s = .ok inp)
    (hout : env.stdoutPipe s = .ok out)
    (hrun : env.run s command = none) :
    (sshconf.StreamCommand env t sc command).outcome = Outcome.blocked ∧
      (sshconf.StreamCommand env t sc command).outcome ≠ Outcome.returned none ∧
      executions (sshconf.StreamCommand env t sc command).trace = executions t ++ [command] ∧
      closeCount s (sshconf.StreamCommand env t sc command).trace = closeCount s t := by
  simp [sshconf.StreamCommand, hs, hpty, hin, hout, hrun, executions_append, executions,
    closeCount, List.count_append]

/-- C5 at the failing input: everything succeeds, the command `top` has run,
and `StreamCommand` is parked on `wg.Wait()`. -/
theorem StreamCommand_blocks_after_success_witness :
    (sshconf.StreamCommand envOK [] scReady "top").outcome = Outcome.blocked ∧
      (sshconf.StreamCommand envOK [] scReady "top").outcome ≠ Outcome.returned none ∧
      executions (sshconf.StreamCommand envOK [] scReady "top").trace = ["top"] ∧
      closeCount ⟨1⟩ (sshconf.StreamCommand envOK [] scReady "top").trace = 0 :=
  StreamCommand_blocks_after_success envOK [] scReady "top" ⟨1⟩ ⟨0⟩ ⟨1⟩ rfl rfl rfl rfl rfl

/-- C8: a remote command that is run by `StreamCommand` and fails is never
reported through the return value: `StreamCommand` calls `log.Fatal` and the
process exits.  Whenever `StreamCommand` does return a non-nil error, that
error is the one of the PTY request, `Close` has been invoked on the session
exactly once during the call, and no command has been run; and a refused PTY
request is indeed returned so. -/
theorem StreamCommand_error_paths (env : Env) (t : Trace) (sc : sshconf) (command : String) :
    (∀ s inp out e, sc.sess = some s →
        env.requestPty s "xterm" 80 40 modes = none →
        env.stdinPipe s = .ok inp → env.stdoutPipe s = .ok out →
        env.run s command = some e →
        (sshconf.StreamCommand env t sc command).outcome = Outcome.fatal ∧
          (sshconf.StreamCommand env t sc command).trace.getLast?
            = some (Event.logFatal ("Failed to run: " ++ e.msg))) ∧
      (∀ e, (sshconf.StreamCommand env t sc command).outcome = Outcome.returned (some e) →
        ∃ s, sc.sess = some s ∧
          env.requestPty s "xterm" 80 40 modes = some e ∧
          closeCount s (sshconf.StreamCommand env t sc command).trace = closeCount s t + 1 ∧
          executions (sshconf.StreamCommand env t sc command).trace = executions t) ∧
      (∀ s e, sc.sess = some s → env.requestPty s "xterm" 80 40 modes = some e →
        (sshconf.StreamCommand env t sc command).outcome = Outcome.returned (some e)) := by
  refine ⟨?_, ?_, ?_⟩
  · intro s inp out e hs hpty hin hout hrun
    simp [sshconf.StreamCommand, hs, hpty, hin, hout, hrun]
  · intro e hret
    cases hs : sc.sess with
    | none => simp [sshconf.StreamCommand, hs] at hret
    | some s =>
      refine ⟨s, rfl, ?_⟩
      simp only [sshconf.StreamCommand, hs] at hret ⊢
      cases hpty : env.requestPty s "xterm" 80 40 modes with
      | some e1 =>
        simp only [hpty] at hret ⊢
        simp only [Outcome.returned.injEq, Option.some.injEq] at hret
        subst hret
        simp [runDeferred, closeCount, List.count_append, executions_append, executions]
      | none =>
        simp only [hpty] at hret
        cases hin : env.stdinPipe s with
        | error e2 => simp [hin] at hret
        | ok inp =>
          simp only [hin] at hret
          cases hout : env.stdoutPipe s with
          | error e3 => simp [hout] at hret
          | ok out =>
            simp only [hout] at hret
            cases hrun : env.run s command with
            | some e4 => simp [hrun] at hret
            | none => simp [hrun] at hret
  · intro s e hs hpty
    simp [sshconf.StreamCommand, hs, hpty]

/-- C8 at concrete worlds: a failing remote command ends in `log.Fatal`; a
refused PTY request is returned as the error, with one `Close` on session 1
and no command run. -/
theorem StreamCommand_error_paths_witness :
    (sshconf.StreamCommand envExecFails [] scReady "false").outcome = Outcome.fatal ∧
      (sshconf.StreamCommand envNoPty [] scReady "top").outcome
        = Outcome.returned (some ⟨"ssh: pty-req failed"⟩) ∧
      (∃ s, scReady.sess = some s ∧
        envNoPty.requestPty s "xterm" 80 40 modes = some ⟨"ssh: pty-req failed"⟩ ∧
        closeCount s (sshconf.StreamCommand envNoPty [] scReady "top").trace
          = closeCount s [] + 1 ∧
        executions (sshconf.StreamCommand envNoPty [] scReady "top").trace = executions []) :=
  ⟨((StreamCommand_error_paths envExecFails [] scReady "false").1 ⟨1⟩ ⟨0⟩ ⟨1⟩ _
      rfl rfl rfl rfl rfl).1,
    (StreamCommand_error_paths envNoPty [] scReady "top").2.2 ⟨1⟩ _ rfl rfl,
    (StreamCommand_error_paths envNoPty [] scReady "top").2.1 _ rfl⟩

end SSHTool
